import Mathlib

/-!
Verification of the pagerduty-auto-ack core: a shallow embedding of
`src/pagerduty_auto_ack/cli.py` and `src/pagerduty_auto_ack/pd.py`.

The backend (PagerDuty REST API) is modelled by an oracle giving, for one
cycle, the responses of the three HTTP calls the cycle may issue: the
on-call query, the incident fetch, and the bulk status update.  Each
response is an `Except` value: `.error` models the Python call raising an
exception, `.ok` models a successful response.  The cycle body is a pure
function from the pre-cycle accumulator state and the oracle to a trace
recording the post state, the backend calls actually issued, whether an
exception reached the cycle-boundary `except Exception` handler, and
whether the scheduler reached its sleep.
-/

/-- Error detail carried by a raised exception (opaque to the core). -/
abbrev PDErr := String

/-- One entry of the `GET /oncalls` response. -/
structure OncallEntry where
  schedule : String
deriving DecidableEq, Repr

/-- An incident as returned by the backend (fields read by the core). -/
structure Incident where
  id : String
  incident_number : Nat
  title : String
  status : String
deriving DecidableEq, Repr

/-- One element of the bulk `PUT /incidents` body, as built by
`_update_incidents` in `pd.py`. -/
structure IncidentRef where
  id : String
  type : String
  status : String
deriving DecidableEq, Repr

/-- A backend HTTP call issued during a cycle, with the request data the
code puts in it. -/
inductive BackendCall where
  | getOncalls (user_ids schedule_ids : List String)
  | getIncidents (user_ids urgencies statuses : List String)
  | putIncidents (refs : List IncidentRef)
deriving DecidableEq, Repr

/-- Backend responses for one cycle: what each of the three possible HTTP
calls would return (or raise) if issued this cycle. -/
structure CycleOracle where
  oncallEntries : Except PDErr (List OncallEntry)
  fetchResult : Except PDErr (List Incident)
  updateResult : Except PDErr Unit
deriving Repr

namespace pd

/-- `pd.is_user_oncall`: queries `GET /oncalls`; returns `len(list(oncalls)) > 0`
on success and `True` when the query raises (the `except Exception` branch). -/
def is_user_oncall (response : Except PDErr (List OncallEntry)) : Bool :=
  match response with
  | .ok oncalls => decide (0 < oncalls.length)
  | .error _ => true

/-- The HTTP calls issued by `pd._update_incidents`: none when
`incident_ids` is empty (early `return`), otherwise a single bulk
`PUT /incidents` whose body lists every id with the target status. -/
def update_incidents_calls (incident_ids : List String) (status : String) :
    List BackendCall :=
  if incident_ids.isEmpty then []
  else [BackendCall.putIncidents
    (incident_ids.map (fun i => ⟨i, "incident_reference", status⟩))]

end pd

/-- Resolved configuration, mirroring the dict built by `resolve_config`. -/
structure Settings where
  pagerduty_api_key : Option String
  interval : Int
  urgencies : List String
  action : String
  all_incidents : Bool
  schedule_id : Option String
deriving DecidableEq, Repr

/-- The `statuses` filter chosen in `main` from the action mode
(`cli.py` lines 128–135). -/
def statuses_for (action : String) : List String :=
  if action == "resolve" then ["triggered", "acknowledged"] else ["triggered"]

/-- The bulk-update target status chosen in `main` from the action mode:
`resolve_incidents` sends `"resolved"`, `acknowledge_incidents` sends
`"acknowledged"`. -/
def target_status (action : String) : String :=
  if action == "resolve" then "resolved" else "acknowledged"

/-- Result of one execution of the loop body in `main` (`cli.py`
lines 143–177). -/
structure CycleTrace where
  state' : List Incident
  calls : List BackendCall
  raised : Bool
  slept : Bool
deriving DecidableEq, Repr

/-- The part of the loop body inside the `try`: on-call gate, fetch,
truncation to 250, append to `ack_incidents`, bulk update.  The third
component is the exception, if any, propagating to the cycle-boundary
handler; note the append to the accumulator happens before the update
call is issued, so an update failure leaves the appended state behind. -/
def cycleBody (s : Settings) (user_id : String) (state : List Incident)
    (o : CycleOracle) : List Incident × List BackendCall × Option PDErr :=
  let gate : Option String :=
    match s.schedule_id with
    | some sid => if sid == "" then none else some sid
    | none => none
  match gate with
  | some sid =>
    if pd.is_user_oncall o.oncallEntries then
      cycleFetchAct s user_id state o [BackendCall.getOncalls [user_id] [sid]]
    else
      (state, [BackendCall.getOncalls [user_id] [sid]], none)
  | none => cycleFetchAct s user_id state o []
where
  /-- Fetch → truncate → append → bulk update, after the gate passed. -/
  cycleFetchAct (s : Settings) (user_id : String) (state : List Incident)
      (o : CycleOracle) (gateCalls : List BackendCall) :
      List Incident × List BackendCall × Option PDErr :=
    let user_ids := if s.all_incidents then ([] : List String) else [user_id]
    let fetchCall := BackendCall.getIncidents user_ids s.urgencies
      (statuses_for s.action)
    match o.fetchResult with
    | .error e => (state, gateCalls ++ [fetchCall], some e)
    | .ok fetched =>
      let incidents := fetched.take 250
      let incident_ids := incidents.map (fun i => i.id)
      let state2 := state ++ incidents
      let pCalls := pd.update_incidents_calls incident_ids
        (target_status s.action)
      if incident_ids.isEmpty then
        (state2, gateCalls ++ [fetchCall], none)
      else
        match o.updateResult with
        | .error e => (state2, gateCalls ++ [fetchCall] ++ pCalls, some e)
        | .ok _ => (state2, gateCalls ++ [fetchCall] ++ pCalls, none)

/-- One full loop iteration: the body runs under `except Exception`, which
turns any raised exception into a logged warning, and the iteration always
reaches its `time.sleep(interval)` (either the one in the skip path or the
one at the bottom of the loop). -/
def runCycle (s : Settings) (user_id : String) (state : List Incident)
    (o : CycleOracle) : CycleTrace :=
  let b := cycleBody s user_id state o
  { state' := b.1, calls := b.2.1, raised := b.2.2.isSome, slept := true }

/-- The scheduler driving one cycle per oracle, threading the accumulator
(`ack_incidents`) from cycle to cycle. -/
def runCyclesTrace (s : Settings) (user_id : String) :
    List Incident → List CycleOracle → List CycleTrace
  | _, [] => []
  | st, o :: os =>
    let t := runCycle s user_id st o
    t :: runCyclesTrace s user_id t.state' os

/-- An oracle on which every backend call raises. -/
def failingOracle : CycleOracle :=
  ⟨Except.error "boom", Except.error "boom", Except.error "boom"⟩

/-- The parsed command-line values, one per flag mirroring `parse_args`;
`none` means the flag was not given (every flag defaults to `None`). -/
structure ArgsCLI where
  pagerduty_api_key : Option String
  interval : Option Int
  urgencies : Option (List String)
  action : Option String
  all_incidents : Option Bool
  schedule_id : Option String
deriving DecidableEq, Repr

/-- The TOML config file contents as a partial key/value document; `none`
means the key is absent (when no `--config` path was given, every key is
absent, matching `config = {}`). -/
structure FileConfig where
  pagerduty_api_key : Option String
  interval : Option Int
  urgencies : Option (List String)
  action : Option String
  all_incidents : Option Bool
  schedule_id : Option String
deriving DecidableEq, Repr

/-- The inner `pick(cli_val, key)` of `resolve_config`: the CLI value when
it is not `None`, else `config.get(key, DEFAULTS[key])`. -/
def pick {α : Type} (cliVal : Option α) (fileVal : Option α) (dflt : α) : α :=
  match cliVal with
  | some v => v
  | none =>
    match fileVal with
    | some v => v
    | none => dflt

/-- `resolve_config`: merges CLI args over file values over the `DEFAULTS`
dict, field by field.  For the two fields whose default is `None`
(credential and schedule id) the resolved value is itself optional, so the
CLI/file values are injected with `some`. -/
def resolve_config (args : ArgsCLI) (config : FileConfig) : Settings :=
  { pagerduty_api_key :=
      pick (args.pagerduty_api_key.map some) (config.pagerduty_api_key.map some) none
    interval := pick args.interval config.interval 60
    urgencies := pick args.urgencies config.urgencies []
    action := pick args.action config.action "ack"
    all_incidents := pick args.all_incidents config.all_incidents false
    schedule_id :=
      pick (args.schedule_id.map some) (config.schedule_id.map some) none }

/-- Python truthiness of the resolved credential in `if not pd_api_key:`:
true when it is `None` or the empty string. -/
def credentialEmpty : Option String → Bool
  | none => true
  | some s => s == ""

/-- What `main` does between config resolution and the loop. -/
inductive StartOutcome where
  | exitError : StartOutcome
  | enterLoop : Settings → StartOutcome
deriving DecidableEq, Repr

/-- The startup path of `main` (`cli.py` lines 106–143): resolve the
config, then `sys.exit(1)` when the credential is falsy, otherwise proceed
to identity resolution and the monitoring loop with the resolved
settings. -/
def main_start (args : ArgsCLI) (config : FileConfig) : StartOutcome :=
  let cfg := resolve_config args config
  if credentialEmpty cfg.pagerduty_api_key then StartOutcome.exitError
  else StartOutcome.enterLoop cfg

/-- Modelled from the spec: "the merged credential ... after CLI+file+default"
(§8) — the credential value the precedence chain produces, written directly
from the spec's words for comparison with `resolve_config`. -/
def mergedCredential (args : ArgsCLI) (config : FileConfig) : Option String :=
  match args.pagerduty_api_key with
  | some k => some k
  | none => config.pagerduty_api_key

/-- Whether a backend call is the bulk `PUT /incidents`. -/
def isPutCall : BackendCall → Bool
  | .putIncidents _ => true
  | _ => false

/-- The bulk status-update calls among a cycle's calls. -/
def putCallsOf (calls : List BackendCall) : List BackendCall :=
  calls.filter isPutCall

/-! ### Concrete fixtures used by counterexamples and witnesses -/

/-- A resolved configuration with defaults and a valid key. -/
def sampleSettings : Settings :=
  { pagerduty_api_key := some "KEY", interval := 60, urgencies := [],
    action := "ack", all_incidents := false, schedule_id := none }

def inc1 : Incident := ⟨"P1", 101, "db down", "triggered"⟩

def inc2 : Incident := ⟨"P2", 102, "disk full", "triggered"⟩

def inc3 : Incident := ⟨"P3", 103, "api slow", "acknowledged"⟩

/-- A command line giving no flag at all. -/
def emptyArgs : ArgsCLI := ⟨none, none, none, none, none, none⟩

/-- An absent (or empty) config file. -/
def emptyFileConfig : FileConfig := ⟨none, none, none, none, none, none⟩

/-- An oracle whose fetch succeeds with one incident and whose bulk update
raises. -/
def oracleUpdFail : CycleOracle :=
  ⟨Except.ok [], Except.ok [inc1], Except.error "boom"⟩

/-- An oracle whose fetch raises. -/
def oracleFetchFail : CycleOracle :=
  ⟨Except.ok [], Except.error "net", Except.ok ()⟩

/-- An oracle returning three triggered incidents from the fetch. -/
def oracleThree : CycleOracle :=
  ⟨Except.ok [], Except.ok [inc1, inc2, inc3], Except.ok ()⟩

/-- Settings with on-call gating configured. -/
def gatedSettings : Settings :=
  { sampleSettings with schedule_id := some "SCHED" }

/-- An oracle whose on-call query succeeds with no entries (not on-call)
while incidents would be available. -/
def oracleOffCall : CycleOracle :=
  ⟨Except.ok [], Except.ok [inc1], Except.ok ()⟩

/-- Settings resolved with the resolve action. -/
def resolveSettings : Settings := { sampleSettings with action := "resolve" }

/-- An oracle returning one triggered and one acknowledged incident. -/
def oracleMixed : CycleOracle :=
  ⟨Except.ok [], Except.ok [inc1, inc3], Except.ok ()⟩

/-- A config file supplying the credential and an arbitrary action string
that argparse's `choices` never saw. -/
def fileBogusAction : FileConfig :=
  ⟨some "KEY", none, none, some "frobnicate", none, none⟩

/-- Settings resolved from an empty command line and the bogus-action
file. -/
def bogusSettings : Settings := resolve_config emptyArgs fileBogusAction

/-- Command line supplying only a valid key, with interval zero. -/
def argsZeroInterval : ArgsCLI :=
  ⟨some "KEY", some 0, none, none, none, none⟩

/-- A command line leaving urgencies, action, all-incidents and schedule id
unset, with an explicit key and interval. -/
def argsW : ArgsCLI := ⟨some "CLIKEY", some 5, none, none, none, none⟩

/-- A config file that also sets the key and interval (overridden by the
CLI above), plus urgencies and a schedule id. -/
def fileW : FileConfig :=
  ⟨some "FILEKEY", some 9, some ["high"], none, none, some "SCHED"⟩

/-! ### Helper lemmas -/

theorem runCyclesTrace_length (s : Settings) (uid : String) :
    ∀ (os : List CycleOracle) (st : List Incident),
      (runCyclesTrace s uid st os).length = os.length := by
  intro os
  induction os with
  | nil => intro st; rfl
  | cons o os ih => intro st; simp [runCyclesTrace, ih]

theorem runCyclesTrace_slept (s : Settings) (uid : String) :
    ∀ (os : List CycleOracle) (st : List Incident),
      (runCyclesTrace s uid st os).all (fun t => t.slept) = true := by
  intro os
  induction os with
  | nil => intro st; rfl
  | cons o os ih => intro st; simp [runCyclesTrace, List.all_cons, ih, runCycle]

/-- When gating is off (no schedule id) or the gate reports on-call, the
body proceeds to the fetch/act sequence, with at most the on-call lookup
(never a bulk update) issued before it. -/
theorem cycleBody_gate_passes (s : Settings) (uid : String)
    (st : List Incident) (o : CycleOracle)
    (hgate : s.schedule_id = none ∨ pd.is_user_oncall o.oncallEntries = true) :
    ∃ gcalls, cycleBody s uid st o = cycleBody.cycleFetchAct s uid st o gcalls ∧
      putCallsOf gcalls = [] := by
  rcases hgate with h | h
  · exact ⟨[], by simp [cycleBody, h], rfl⟩
  · cases hs : s.schedule_id with
    | none => exact ⟨[], by simp [cycleBody, hs], rfl⟩
    | some sid =>
      by_cases hsid : sid = ""
      · exact ⟨[], by simp [cycleBody, hs, hsid], rfl⟩
      · refine ⟨[BackendCall.getOncalls [uid] [sid]], ?_, rfl⟩
        simp [cycleBody, hs, hsid, h]

/-- The credential field of `resolve_config` is exactly the merged
credential of the precedence chain. -/
theorem resolve_config_key_eq (args : ArgsCLI) (file : FileConfig) :
    (resolve_config args file).pagerduty_api_key =
      mergedCredential args file := by
  obtain ⟨k, i, u, a, ai, sid⟩ := args
  obtain ⟨fk, fi, fu, fa, fai, fsid⟩ := file
  cases k <;> cases fk <;> rfl

/-! ### Claim theorems -/

/-- C1: any exception raised during the on-call check, fetch, or
bulk-update steps of a cycle is caught at the cycle boundary and the
scheduler still sleeps and begins the next cycle: for every oracle
sequence — in particular for `N` consecutive all-failing cycles — the
loop executes one trace entry per cycle and every cycle reaches its
sleep; no transient exception terminates the monitoring loop. -/
theorem loop_survives_transient_failures (s : Settings) (uid : String)
    (st : List Incident) (os : List CycleOracle) :
    (runCyclesTrace s uid st os).length = os.length ∧
    (runCyclesTrace s uid st os).all (fun t => t.slept) = true ∧
    ∀ N : Nat,
      (runCyclesTrace s uid st (List.replicate N failingOracle)).length = N := by
  refine ⟨runCyclesTrace_length s uid os st, runCyclesTrace_slept s uid os st, ?_⟩
  intro N
  simpa using runCyclesTrace_length s uid (List.replicate N failingOracle) st

/-- C5: `is_user_oncall` returns true when the on-call query itself raises
(fail-open), and on success returns true iff at least one on-call entry is
returned. -/
theorem is_user_oncall_fail_open :
    (∀ e : PDErr, pd.is_user_oncall (Except.error e) = true) ∧
    (∀ entries : List OncallEntry,
      (pd.is_user_oncall (Except.ok entries) = true ↔ entries ≠ [])) := by
  refine ⟨fun e => rfl, fun entries => ?_⟩
  simp [pd.is_user_oncall, List.length_pos]

/-- C2 counterexample: in a cycle where the bulk update raises, the
accumulator has nevertheless grown — `ack_incidents += incidents` runs
before `action_fn`, so the RunState is NOT left unchanged by a failing
cycle. -/
theorem update_failure_still_grows_runstate :
    (runCycle sampleSettings "U1" [] oracleUpdFail).raised = true ∧
    (runCycle sampleSettings "U1" [] oracleUpdFail).state' = [inc1] ∧
    (runCycle sampleSettings "U1" [] oracleUpdFail).state' ≠ [] := by
  refine ⟨rfl, rfl, ?_⟩
  decide

/-- C2 (amended): a cycle whose fetch raises leaves RunState unchanged;
a cycle whose bulk update raises leaves RunState grown by the truncated
candidate list, because the append to the accumulator precedes the update
call; in both cases the exception is caught and the scheduler still sleeps
and attempts the next cycle. -/
theorem cycle_failure_runstate (s : Settings) (uid : String)
    (st : List Incident) (o : CycleOracle)
    (hgate : s.schedule_id = none ∨ pd.is_user_oncall o.oncallEntries = true) :
    (∀ e, o.fetchResult = Except.error e →
      (runCycle s uid st o).state' = st ∧
      (runCycle s uid st o).raised = true ∧
      (runCycle s uid st o).slept = true) ∧
    (∀ l e, o.fetchResult = Except.ok l → o.updateResult = Except.error e →
      l.take 250 ≠ [] →
      (runCycle s uid st o).state' = st ++ l.take 250 ∧
      (runCycle s uid st o).raised = true ∧
      (runCycle s uid st o).slept = true) := by
  obtain ⟨gcalls, hg, -⟩ := cycleBody_gate_passes s uid st o hgate
  constructor
  · intro e hf
    simp [runCycle, hg, cycleBody.cycleFetchAct, hf]
  · intro l e hf hu hne
    have hl : l ≠ [] := fun h => hne (by simp [h])
    simp [runCycle, hg, cycleBody.cycleFetchAct, hf, hu, hl]

/-- Witness for C2 (amended) at concrete failing oracles: a fetch failure
leaves the accumulator as it was; an update failure leaves it grown by the
fetched incident. -/
theorem cycle_failure_runstate_witness :
    ((runCycle sampleSettings "U1" [inc2] oracleFetchFail).state' = [inc2] ∧
     (runCycle sampleSettings "U1" [inc2] oracleFetchFail).raised = true ∧
     (runCycle sampleSettings "U1" [inc2] oracleFetchFail).slept = true) ∧
    ((runCycle sampleSettings "U1" [] oracleUpdFail).state' =
        [] ++ [inc1].take 250 ∧
     (runCycle sampleSettings "U1" [] oracleUpdFail).raised = true ∧
     (runCycle sampleSettings "U1" [] oracleUpdFail).slept = true) :=
  ⟨(cycle_failure_runstate sampleSettings "U1" [inc2] oracleFetchFail
      (Or.inl rfl)).1 "net" rfl,
   (cycle_failure_runstate sampleSettings "U1" [] oracleUpdFail
      (Or.inl rfl)).2 [inc1] "boom" rfl rfl (by decide)⟩

/-- C4: when the gate passes and the fetch succeeds, the cycle issues no
bulk status-update call when the truncated candidate list is empty, issues
exactly one bulk call otherwise, that call names at most 250 incidents
(candidates beyond 250 are dropped this cycle), and the accumulator grows
by exactly the number of incidents included in the cycle's result. -/
theorem applyAction_bulk_call (s : Settings) (uid : String)
    (st : List Incident) (o : CycleOracle)
    (hgate : s.schedule_id = none ∨ pd.is_user_oncall o.oncallEntries = true)
    (fetched : List Incident) (hf : o.fetchResult = Except.ok fetched) :
    (fetched.take 250 = [] → putCallsOf (runCycle s uid st o).calls = []) ∧
    (fetched.take 250 ≠ [] → ∃ refs,
      putCallsOf (runCycle s uid st o).calls = [BackendCall.putIncidents refs] ∧
      refs.length ≤ 250) ∧
    (runCycle s uid st o).state'.length =
      st.length + (fetched.take 250).length := by
  obtain ⟨gcalls, hg, hput⟩ := cycleBody_gate_passes s uid st o hgate
  have hputf : gcalls.filter isPutCall = [] := hput
  refine ⟨?_, ?_, ?_⟩
  · intro he
    have hl : fetched = [] := by
      rcases List.take_eq_nil_iff.mp he with h | h
      · exact absurd h (by decide)
      · exact h
    subst hl
    simp [runCycle, hg, cycleBody.cycleFetchAct, hf, putCallsOf,
      List.filter_append, hputf, isPutCall]
  · intro hne
    have hl : fetched ≠ [] := fun h => hne (by simp [h])
    refine ⟨(fetched.take 250).map
      (fun i => ⟨i.id, "incident_reference", target_status s.action⟩), ?_, ?_⟩
    · cases hu : o.updateResult with
      | error e =>
        simp only [runCycle, hg, cycleBody.cycleFetchAct, hf, hu, putCallsOf,
          List.filter_append, hputf, isPutCall, pd.update_incidents_calls,
          List.map_take]
        simp [hl, isPutCall, List.map_take, hputf]
        rfl
      | ok u =>
        simp only [runCycle, hg, cycleBody.cycleFetchAct, hf, hu, putCallsOf,
          List.filter_append, hputf, isPutCall, pd.update_incidents_calls,
          List.map_take]
        simp [hl, isPutCall, List.map_take, hputf]
        rfl
    · simp only [List.length_map]
      exact List.length_take_le 250 fetched
  · cases hu : o.updateResult with
    | error e =>
      by_cases hl : fetched = [] <;>
        simp [runCycle, hg, cycleBody.cycleFetchAct, hf, hu, hl]
    | ok u =>
      by_cases hl : fetched = [] <;>
        simp [runCycle, hg, cycleBody.cycleFetchAct, hf, hu, hl]

/-- Witness for C4: with three fetched incidents and an empty initial
accumulator, the cycle issues exactly one bulk call of at most 250 refs
and the accumulator length becomes 3. -/
theorem applyAction_bulk_call_witness :
    (0 : Nat) < 3 ∧
    ([inc1, inc2, inc3].take 250 ≠ [] → ∃ refs,
      putCallsOf (runCycle sampleSettings "U1" [] oracleThree).calls =
        [BackendCall.putIncidents refs] ∧ refs.length ≤ 250) ∧
    (runCycle sampleSettings "U1" [] oracleThree).state'.length =
      ([] : List Incident).length + ([inc1, inc2, inc3].take 250).length :=
  ⟨by decide,
   (applyAction_bulk_call sampleSettings "U1" [] oracleThree (Or.inl rfl)
      [inc1, inc2, inc3] rfl).2.1,
   (applyAction_bulk_call sampleSettings "U1" [] oracleThree (Or.inl rfl)
      [inc1, inc2, inc3] rfl).2.2⟩

/-- C6: when a (non-empty) rotation id is configured and the gate reports
not on-call, the cycle issues only the on-call lookup — no fetch and no
bulk update — leaves the accumulator unchanged, raises nothing, and
proceeds to the sleep. -/
theorem oncall_gate_skip (s : Settings) (uid : String) (st : List Incident)
    (o : CycleOracle) (sid : String) (hs : s.schedule_id = some sid)
    (hsid : sid ≠ "")
    (hoff : pd.is_user_oncall o.oncallEntries = false) :
    (runCycle s uid st o).state' = st ∧
    (runCycle s uid st o).calls = [BackendCall.getOncalls [uid] [sid]] ∧
    (runCycle s uid st o).raised = false ∧
    (runCycle s uid st o).slept = true := by
  simp [runCycle, cycleBody, hs, hsid, hoff]

/-- Witness for C6 at a concrete gated configuration and an off-call
oracle. -/
theorem oncall_gate_skip_witness :
    (runCycle gatedSettings "U1" [inc2] oracleOffCall).state' = [inc2] ∧
    (runCycle gatedSettings "U1" [inc2] oracleOffCall).calls =
      [BackendCall.getOncalls ["U1"] ["SCHED"]] ∧
    (runCycle gatedSettings "U1" [inc2] oracleOffCall).raised = false ∧
    (runCycle gatedSettings "U1" [inc2] oracleOffCall).slept = true :=
  oncall_gate_skip gatedSettings "U1" [inc2] oracleOffCall "SCHED" rfl
    (by decide) (by decide)

/-- C7: the action mode determines both the fetch status filter and the
bulk-update target status — `"ack"` fetches only triggered incidents and
updates them to acknowledged; `"resolve"` fetches triggered and
acknowledged incidents and updates all returned incidents (here at most
250 of them) to resolved, in a single bulk PUT. -/
theorem action_mode_mapping (s : Settings) (uid : String)
    (st : List Incident) (o : CycleOracle)
    (hgate : s.schedule_id = none) (fetched : List Incident)
    (hf : o.fetchResult = Except.ok fetched) (hne : fetched ≠ [])
    (hlen : fetched.length ≤ 250) :
    (statuses_for "ack" = ["triggered"] ∧
     target_status "ack" = "acknowledged") ∧
    (statuses_for "resolve" = ["triggered", "acknowledged"] ∧
     target_status "resolve" = "resolved") ∧
    (runCycle s uid st o).calls =
      [BackendCall.getIncidents (if s.all_incidents then [] else [uid])
         s.urgencies (statuses_for s.action),
       BackendCall.putIncidents (fetched.map
         (fun i => ⟨i.id, "incident_reference", target_status s.action⟩))] := by
  refine ⟨⟨rfl, rfl⟩, ⟨rfl, rfl⟩, ?_⟩
  have htake : fetched.take 250 = fetched := List.take_of_length_le hlen
  cases hu : o.updateResult with
  | error e =>
    simp [runCycle, cycleBody, hgate, cycleBody.cycleFetchAct, hf, hu, hne,
      pd.update_incidents_calls, htake, List.map_take]
  | ok u =>
    simp [runCycle, cycleBody, hgate, cycleBody.cycleFetchAct, hf, hu, hne,
      pd.update_incidents_calls, htake, List.map_take]

/-- Witness for C7: with action `"resolve"` and a fetch returning a
triggered and an acknowledged incident, the cycle requests both statuses
and issues one bulk PUT setting both incidents to resolved. -/
theorem action_mode_mapping_witness :
    (statuses_for "ack" = ["triggered"] ∧
     target_status "ack" = "acknowledged") ∧
    (statuses_for "resolve" = ["triggered", "acknowledged"] ∧
     target_status "resolve" = "resolved") ∧
    (runCycle resolveSettings "U1" [] oracleMixed).calls =
      [BackendCall.getIncidents
         (if resolveSettings.all_incidents then [] else ["U1"])
         resolveSettings.urgencies (statuses_for resolveSettings.action),
       BackendCall.putIncidents ([inc1, inc3].map
         (fun i => ⟨i.id, "incident_reference",
            target_status resolveSettings.action⟩))] :=
  action_mode_mapping resolveSettings "U1" [] oracleMixed rfl [inc1, inc3]
    rfl (by decide) (by decide)

/-- C10: any resolved action value other than exactly `"resolve"` —
including arbitrary unvalidated strings supplied through the config file,
which bypass the command-line choices check — behaves as acknowledge: the
fetch asks only for triggered incidents, and the bulk update targets
status acknowledged. -/
theorem non_resolve_action_acks (s : Settings) (uid : String)
    (st : List Incident) (o : CycleOracle)
    (ha : s.action ≠ "resolve") (hgate : s.schedule_id = none)
    (fetched : List Incident) (hf : o.fetchResult = Except.ok fetched)
    (hne : fetched ≠ []) (hlen : fetched.length ≤ 250) :
    statuses_for s.action = ["triggered"] ∧
    target_status s.action = "acknowledged" ∧
    (runCycle s uid st o).calls =
      [BackendCall.getIncidents (if s.all_incidents then [] else [uid])
         s.urgencies ["triggered"],
       BackendCall.putIncidents (fetched.map
         (fun i => ⟨i.id, "incident_reference", "acknowledged"⟩))] := by
  have hs : statuses_for s.action = ["triggered"] := by
    simp [statuses_for, ha]
  have ht : target_status s.action = "acknowledged" := by
    simp [target_status, ha]
  refine ⟨hs, ht, ?_⟩
  have htake : fetched.take 250 = fetched := List.take_of_length_le hlen
  cases hu : o.updateResult with
  | error e =>
    simp [runCycle, cycleBody, hgate, cycleBody.cycleFetchAct, hf, hu, hne,
      pd.update_incidents_calls, htake, List.map_take, hs, ht]
  | ok u =>
    simp [runCycle, cycleBody, hgate, cycleBody.cycleFetchAct, hf, hu, hne,
      pd.update_incidents_calls, htake, List.map_take, hs, ht]

/-- Witness for C10: the file-supplied action `"frobnicate"` reaches the
loop and the cycle behaves exactly as acknowledge. -/
theorem non_resolve_action_acks_witness :
    statuses_for bogusSettings.action = ["triggered"] ∧
    target_status bogusSettings.action = "acknowledged" ∧
    (runCycle bogusSettings "U1" [] oracleThree).calls =
      [BackendCall.getIncidents
         (if bogusSettings.all_incidents then [] else ["U1"])
         bogusSettings.urgencies ["triggered"],
       BackendCall.putIncidents ([inc1, inc2, inc3].map
         (fun i => ⟨i.id, "incident_reference", "acknowledged"⟩))] :=
  non_resolve_action_acks bogusSettings "U1" [] oracleThree (by decide) rfl
    [inc1, inc2, inc3] rfl (by decide) (by decide)

/-- C8: the process exits with a non-zero status before entering the
monitoring loop exactly when the merged credential is empty (`None` or
the empty string); when it is non-empty, startup proceeds to identity
resolution and the loop with the resolved settings. -/
theorem missing_credential_exit (args : ArgsCLI) (file : FileConfig) :
    (main_start args file = StartOutcome.exitError ↔
      credentialEmpty (mergedCredential args file) = true) ∧
    (main_start args file =
        StartOutcome.enterLoop (resolve_config args file) ↔
      credentialEmpty (mergedCredential args file) = false) := by
  rw [← resolve_config_key_eq]
  by_cases hc :
      credentialEmpty (resolve_config args file).pagerduty_api_key = true
  · simp [main_start, hc]
  · have hc' :
        credentialEmpty (resolve_config args file).pagerduty_api_key = false :=
      by simpa using hc
    simp [main_start, hc']

/-- C9 counterexample: `--interval 0` passes config resolution and the
credential check, so the program proceeds to run with a Settings whose
interval is not positive — the claimed `interval > 0` invariant fails. -/
theorem interval_not_validated :
    main_start argsZeroInterval emptyFileConfig =
      StartOutcome.enterLoop (resolve_config argsZeroInterval emptyFileConfig) ∧
    (resolve_config argsZeroInterval emptyFileConfig).interval = 0 ∧
    ¬(0 < (resolve_config argsZeroInterval emptyFileConfig).interval) := by
  refine ⟨by decide, rfl, by decide⟩

/-- C9 (amended): every Settings the program proceeds into the loop with
has a non-empty credential, and is exactly the resolved configuration —
in particular the poll interval carries no positivity check and may be
zero or negative. -/
theorem settings_invariant_on_entry (args : ArgsCLI) (file : FileConfig)
    (cfg : Settings)
    (h : main_start args file = StartOutcome.enterLoop cfg) :
    credentialEmpty cfg.pagerduty_api_key = false ∧
    cfg = resolve_config args file := by
  by_cases hc :
      credentialEmpty (resolve_config args file).pagerduty_api_key = true
  · simp [main_start, hc] at h
  · have hc' :
        credentialEmpty (resolve_config args file).pagerduty_api_key = false :=
      by simpa using hc
    simp [main_start, hc'] at h
    exact ⟨h ▸ hc', h.symm⟩

/-- Witness for C9 (amended) at a concrete command line that reaches the
loop. -/
theorem settings_invariant_on_entry_witness :
    credentialEmpty (resolve_config argsW fileW).pagerduty_api_key = false ∧
    resolve_config argsW fileW = resolve_config argsW fileW := by
  have h : main_start argsW fileW =
      StartOutcome.enterLoop (resolve_config argsW fileW) := by decide
  exact settings_invariant_on_entry argsW fileW (resolve_config argsW fileW) h

/-- C3: for every configuration field, the resolved Settings takes the
command-line value when present, otherwise the file value when present,
otherwise the built-in default — independently per field. -/
theorem resolve_config_precedence (args : ArgsCLI) (file : FileConfig) :
    ((∀ v, args.pagerduty_api_key = some v →
        (resolve_config args file).pagerduty_api_key = some v) ∧
     (args.pagerduty_api_key = none → ∀ v, file.pagerduty_api_key = some v →
        (resolve_config args file).pagerduty_api_key = some v) ∧
     (args.pagerduty_api_key = none → file.pagerduty_api_key = none →
        (resolve_config args file).pagerduty_api_key = none)) ∧
    ((∀ v, args.interval = some v → (resolve_config args file).interval = v) ∧
     (args.interval = none → ∀ v, file.interval = some v →
        (resolve_config args file).interval = v) ∧
     (args.interval = none → file.interval = none →
        (resolve_config args file).interval = 60)) ∧
    ((∀ v, args.urgencies = some v → (resolve_config args file).urgencies = v) ∧
     (args.urgencies = none → ∀ v, file.urgencies = some v →
        (resolve_config args file).urgencies = v) ∧
     (args.urgencies = none → file.urgencies = none →
        (resolve_config args file).urgencies = [])) ∧
    ((∀ v, args.action = some v → (resolve_config args file).action = v) ∧
     (args.action = none → ∀ v, file.action = some v →
        (resolve_config args file).action = v) ∧
     (args.action = none → file.action = none →
        (resolve_config args file).action = "ack")) ∧
    ((∀ v, args.all_incidents = some v →
        (resolve_config args file).all_incidents = v) ∧
     (args.all_incidents = none → ∀ v, file.all_incidents = some v →
        (resolve_config args file).all_incidents = v) ∧
     (args.all_incidents = none → file.all_incidents = none →
        (resolve_config args file).all_incidents = false)) ∧
    ((∀ v, args.schedule_id = some v →
        (resolve_config args file).schedule_id = some v) ∧
     (args.schedule_id = none → ∀ v, file.schedule_id = some v →
        (resolve_config args file).schedule_id = some v) ∧
     (args.schedule_id = none → file.schedule_id = none →
        (resolve_config args file).schedule_id = none)) := by
  repeat' constructor
  all_goals intros
  all_goals simp_all [resolve_config, pick]

/-- Witness for C3 at a concrete CLI/file pair exercising all three
precedence levels. -/
theorem resolve_config_precedence_witness :
    (resolve_config argsW fileW).pagerduty_api_key = some "CLIKEY" ∧
    (resolve_config argsW fileW).interval = 5 ∧
    (resolve_config argsW fileW).urgencies = ["high"] ∧
    (resolve_config argsW fileW).action = "ack" ∧
    (resolve_config argsW fileW).all_incidents = false ∧
    (resolve_config argsW fileW).schedule_id = some "SCHED" :=
  ⟨(resolve_config_precedence argsW fileW).1.1 "CLIKEY" rfl,
   (resolve_config_precedence argsW fileW).2.1.1 5 rfl,
   (resolve_config_precedence argsW fileW).2.2.1.2.1 rfl ["high"] rfl,
   (resolve_config_precedence argsW fileW).2.2.2.1.2.2 rfl rfl,
   (resolve_config_precedence argsW fileW).2.2.2.2.1.2.2 rfl rfl,
   (resolve_config_precedence argsW fileW).2.2.2.2.2.2.1 rfl "SCHED" rfl⟩
